import Mathlib

/-!
Verification of the smart-expense-tracker-nodejs lifecycle and auth core.

Shallow embedding of the process-lifecycle and request-authentication core of
the `smart-expense-tracker-nodejs` repository: the authentication gate on the
protected route, the health endpoint, the MongoDB connection retry logic, the
graceful-shutdown sequence, the global error handlers and the port resolution.

Environment values (`process.env.X`) are modelled as `Option String`
parameters; JavaScript truthiness of a string (`s || d`) is modelled by
testing for the empty string.
-/

namespace ExpenseTracker

/-! ## Authentication verifier and the protected route

`src/routes/protected.js` (src/unnamed/part_000 lines 1-13) mounts the `auth`
middleware in front of the `/protected` handler and answers
`{message, userId: req.user}` with the identity the middleware attached.
-/

/-- The error taxonomy of the authentication verifier (spec §7:
`AuthError{Missing, Invalid}`). -/
inductive AuthError
  | missing
  | invalid
  deriving DecidableEq, Repr

/-- Bodies the API surface can answer with on the protected route. -/
inductive ApiBody
  | authErrorBody (kind : AuthError)
  | protectedBody (message : String) (userId : String)
  deriving DecidableEq, Repr

/-- An HTTP response: status code and JSON body. -/
structure ApiResponse where
  status : Nat
  body : ApiBody
  deriving DecidableEq, Repr

/-- Modelled from the spec: `src/middleware/auth.js` is imported by the
protected routes (src/unnamed/part_000 line 2) but its source is not present.
Per spec §4.2, `verify(credential) → Result<Identity, AuthError>`: an absent
credential fails with `AuthError.Missing`; a present but malformed or invalid
credential fails with `AuthError.Invalid`; a valid one yields the identity
encoded in it. The token-verification collaborator is the parameter `decode`,
which returns the encoded identity exactly when the credential is valid. -/
def verify (decode : String → Option String) :
    Option String → Except AuthError String
  | none => .error .missing
  | some cred =>
    match decode cred with
    | none => .error .invalid
    | some uid => .ok uid

/-- The `/protected` handler body from src/unnamed/part_000 lines 6-11. -/
def protectedHandler (userId : String) : ApiResponse :=
  { status := 200
  , body := .protectedBody
      "This is protected data accessible only with valid token" userId }

/-- The middleware pipeline on `GET /api/protected`: the auth middleware runs
first; on failure it answers 401 with a structured error body carrying the
`AuthError` kind and short-circuits; on success it attaches the identity to
the request (`req.user`) and the handler of src/unnamed/part_000 lines 6-11
runs with it. The second component records the identity the handler executed
with (`none` when the handler never ran). -/
def runProtectedRoute (decode : String → Option String) (cred : Option String) :
    ApiResponse × Option String :=
  match verify decode cred with
  | .error e => ({ status := 401, body := .authErrorBody e }, none)
  | .ok uid => (protectedHandler uid, some uid)

/-! ## Health endpoint (src/index.js lines 48-55)

The handler answers 200 with `{status, timestamp, uptime, environment}` and
reads nothing from the database connection; the connection state is passed in
only to show the response does not depend on it. -/

/-- Connection state of the database connection manager (spec §3
`ConnectionState`), mirroring mongoose `readyState`. -/
inductive ConnectionState
  | disconnected
  | connecting
  | connected
  | error
  deriving DecidableEq, Repr

/-- Body of the `/health` response (src/index.js lines 49-54). -/
structure HealthBody where
  status : String
  timestamp : String
  uptime : Nat
  environment : String
  deriving DecidableEq, Repr

/-- Defaulting of the environment name, `NODE_ENV || "development"`, used
throughout src/index.js (lines 53, 63, 222); the empty string is falsy. -/
def envOrDevelopment (nodeEnv : Option String) : String :=
  match nodeEnv with
  | none => "development"
  | some e => if e = "" then "development" else e

/-- The `GET /health` handler (src/index.js lines 48-55). `dbState` is the
database connection state at request time; the handler ignores it. -/
def healthHandler (dbState : ConnectionState) (now : String) (uptime : Nat)
    (nodeEnv : Option String) : Nat × HealthBody :=
  let _ := dbState
  (200,
   { status := "healthy"
   , timestamp := now
   , uptime := uptime
   , environment := envOrDevelopment nodeEnv })

/-! ## MongoDB connection with retry (src/index.js lines 85-121)

`connectToMongoDB(retries = 5)` throws when `MONGO_URI` is absent, otherwise
awaits `mongoose.connect`; the catch block, on `retries > 0`, schedules
`setTimeout(() => connectToMongoDB(retries - 1), 5000)` and returns at once;
with the budget exhausted it logs and, when `NODE_ENV !== "production"`,
calls `process.exit(1)`.

The event loop is modelled as a scheduler state over virtual time in
milliseconds: one invocation of `connectToMongoDB` mutates the state and
returns without advancing time (the `setTimeout` delay elapses in the
scheduler between invocations, never inside one). -/

/-- JavaScript truthiness of `process.env.MONGO_URI` (src/index.js line 88):
the variable is present and not the empty string. -/
def uriPresent : Option String → Bool
  | none => false
  | some u => !(u == "")

/-- Scheduler state for the connect/retry loop. `now` is virtual time in ms;
`pending` holds the deferred `setTimeout` call (due time, `retries` argument);
`attempts` lists the virtual times of each `mongoose.connect` call; `exited`
records a `process.exit` code. -/
structure ConnSched where
  now : Nat
  pending : Option (Nat × Nat)
  attempts : List Nat
  connState : ConnectionState
  exited : Option Nat
  deriving DecidableEq, Repr

/-- One invocation of `connectToMongoDB(retries)` (src/index.js lines
85-121). When the URI is absent the throw at line 89 skips the connect call
and lands in the same catch block as a failed connect; the catch either
schedules the deferred retry 5000ms ahead with a decremented budget (line
113) or, with the budget exhausted, reaches the error state and exits with
code 1 unless `NODE_ENV` is `"production"` (lines 115-118). `connectOk`
stands for the mongoose collaborator: whether a connect attempt succeeds. -/
def invokeConnect (mongoUri : Option String) (connectOk : Bool)
    (nodeEnv : Option String) (retries : Nat) (s : ConnSched) : ConnSched :=
  if uriPresent mongoUri && connectOk then
    { s with attempts := s.attempts ++ [s.now], connState := .connected }
  else
    let s1 : ConnSched :=
      if uriPresent mongoUri then { s with attempts := s.attempts ++ [s.now] }
      else s
    if 0 < retries then
      { s1 with pending := some (s1.now + 5000, retries - 1) }
    else
      { s1 with
        connState := .error,
        exited := if nodeEnv = some "production" then s1.exited else some 1 }

/-- The event loop: fire the pending deferred call (advancing virtual time to
its due moment) until none is pending or the fuel runs out. -/
def drainSched (mongoUri : Option String) (connectOk : Bool)
    (nodeEnv : Option String) : Nat → ConnSched → ConnSched
  | 0, s => s
  | fuel + 1, s =>
    match s.pending with
    | none => s
    | some (t, r) =>
      drainSched mongoUri connectOk nodeEnv fuel
        (invokeConnect mongoUri connectOk nodeEnv r
          { s with now := t, pending := none })

/-- The scheduler state at process start. -/
def initSched : ConnSched :=
  { now := 0, pending := none, attempts := [], connState := .disconnected
  , exited := none }

/-- The whole connect phase: the initial `connectToMongoDB(retries)` call of
src/index.js line 137 followed by every deferred retry it spawns. -/
def runConnect (mongoUri : Option String) (connectOk : Bool)
    (nodeEnv : Option String) (retries : Nat) : ConnSched :=
  drainSched mongoUri connectOk nodeEnv retries
    (invokeConnect mongoUri connectOk nodeEnv retries initSched)

/-! ## Graceful shutdown (src/index.js lines 167-196)

`gracefulShutdown` awaits `server.close` when the server is listening, then
awaits `mongoose.connection.close(false)` when the connection is open
(`readyState !== 0`), then calls `process.exit(0)`; any rejection lands in
the catch block, which logs and calls `process.exit(1)`. Both `SIGTERM` and
`SIGINT` are wired to it (lines 194-196). -/

/-- Observable steps of the shutdown sequence, in order of occurrence.
`mongoClosed` carries the `force` argument passed to the mongoose close. -/
inductive ShutdownEvent
  | serverClosed
  | serverCloseFailed
  | mongoClosed (force : Bool)
  | mongoCloseFailed
  | shutdownErrorLogged
  | exitProcess (code : Nat)
  deriving DecidableEq, Repr

/-- Steps 2-3 of `gracefulShutdown` (src/index.js lines 179-186): close the
database connection non-forcibly when it is open, then exit 0; a close
failure is caught, logged and ends in exit 1 (lines 187-190). -/
def closeMongoSeq (mongoOpen mongoCloseOk : Bool) : List ShutdownEvent :=
  if mongoOpen then
    if mongoCloseOk then [.mongoClosed false, .exitProcess 0]
    else [.mongoCloseFailed, .shutdownErrorLogged, .exitProcess 1]
  else [.exitProcess 0]

/-- The drain sequence of `gracefulShutdown` (src/index.js lines 167-191):
`serverListening` is `server && server.listening`; `serverCloseOk`
(resp. `mongoCloseOk`) tells whether the awaited close succeeds; the awaited
`server.close` resolves only once in-flight requests have completed. -/
def gracefulShutdown (serverListening serverCloseOk mongoOpen mongoCloseOk :
    Bool) : List ShutdownEvent :=
  if serverListening then
    if serverCloseOk then .serverClosed :: closeMongoSeq mongoOpen mongoCloseOk
    else [.serverCloseFailed, .shutdownErrorLogged, .exitProcess 1]
  else closeMongoSeq mongoOpen mongoCloseOk

/-- The signal wiring of src/index.js lines 194-196: exactly the two signals
`SIGTERM` and `SIGINT` trigger the graceful shutdown sequence. -/
def signalResponse (sig : String)
    (serverListening serverCloseOk mongoOpen mongoCloseOk : Bool) :
    Option (List ShutdownEvent) :=
  if sig = "SIGTERM" ∨ sig = "SIGINT" then
    some (gracefulShutdown serverListening serverCloseOk mongoOpen mongoCloseOk)
  else none

/-! ## Idempotent connection close (src/index.js lines 179-183) -/

/-- The mongoose connection handle: its `readyState` (0 = disconnected) and a
counter of driver-level close operations actually performed. -/
structure MongoConnection where
  readyState : Nat
  closeOps : Nat
  deriving DecidableEq, Repr

/-- The guarded close of src/index.js lines 179-183: the connection is closed
only when `readyState !== 0`. The mongoose `close` collaborator follows the
spec §3 invariant `connected → disconnected (on close)`: it brings
`readyState` to 0; `closeOps` counts the close operations issued to it. -/
def closeConnection (c : MongoConnection) : MongoConnection :=
  if c.readyState ≠ 0 then { readyState := 0, closeOps := c.closeOps + 1 }
  else c

/-! ## Global error handlers

src/index.js contains the primary handler (lines 151-163) and, in the
concatenated variant program after the document separator, a second handler
(lines 283-288) that never branches on the environment. -/

/-- The error object reaching an error-handling middleware: its optional
`status`, its `message` and its `stack`. -/
structure ErrorInput where
  status : Option Nat
  message : String
  stack : String
  deriving DecidableEq, Repr

/-- A JSON error response of the global error handlers. -/
structure ErrorResponse where
  status : Nat
  success : Bool
  error : String
  stack : Option String
  deriving DecidableEq, Repr

/-- JavaScript `error.status || 500`: an absent or zero (falsy) status
defaults to 500. -/
def statusOr500 (s : Option Nat) : Nat :=
  match s with
  | none => 500
  | some v => if v = 0 then 500 else v

/-- The primary global error handler (src/index.js lines 151-163):
`isDevelopment` is `NODE_ENV !== "production"`; in development the body
carries `error.message` and `error.stack`, in production the fixed string
`"Internal Server Error"` and no stack field. -/
def globalErrorHandler (nodeEnv : Option String) (e : ErrorInput) :
    ErrorResponse :=
  { status := statusOr500 e.status
  , success := false
  , error := if nodeEnv = some "production" then "Internal Server Error"
             else e.message
  , stack := if nodeEnv = some "production" then none else some e.stack }

/-- The variant global error handler (src/index.js lines 283-288): it answers
`error.message || "Internal Server Error"` with no stack field and never
consults the environment. -/
def variantErrorHandler (e : ErrorInput) : ErrorResponse :=
  { status := statusOr500 e.status
  , success := false
  , error := if e.message = "" then "Internal Server Error" else e.message
  , stack := none }

/-! ## Port resolution (src/index.js lines 14, 58-65, 219) -/

/-- `process.env.PORT || 5001` (src/index.js line 14): an unset or empty
`PORT` defaults to 5001. -/
def resolvePort : Option String → String
  | none => "5001"
  | some p => if p = "" then "5001" else p

/-- The port handed to `app.listen` (src/index.js line 219). -/
def listenPort (envPort : Option String) : String := resolvePort envPort

/-- The `message` field of the root route response (src/index.js line 60). -/
def rootMessage (envPort : Option String) : String :=
  "Smart Expense Tracker API is running on port " ++ resolvePort envPort

end ExpenseTracker

namespace ExpenseTracker


/-- The times `t, t+5000, …` of one more retry round telescope into the next
round of the schedule. -/
theorem retrySlots (t n : Nat) :
    t :: (List.range (n + 1)).map (fun k => t + 5000 + 5000 * k) =
    (List.range (n + 2)).map (fun k => t + 5000 * k) := by
  rw [List.range_succ_eq_map (n + 1), List.map_cons, List.map_map]
  have hf : ((fun k => t + 5000 * k) ∘ Nat.succ) =
      fun k => t + 5000 + 5000 * k := by
    funext k
    simp [Function.comp, Nat.mul_succ]
    ring
  rw [hf]
  simp

/-- Closed form of the connect phase when the URI is present but every
attempt fails: starting at time `t` with budget `r`, attempts happen at
`t, t+5000, …, t+5000*r`, the loop ends in the error state, and exits with
code 1 exactly outside production. -/
theorem drainSched_allFail (mongoUri nodeEnv : Option String)
    (hu : uriPresent mongoUri = true) :
    ∀ (r t : Nat) (a : List Nat) (cs : ConnectionState) (e : Option Nat),
    drainSched mongoUri false nodeEnv r
      (invokeConnect mongoUri false nodeEnv r
        { now := t, pending := none, attempts := a, connState := cs
        , exited := e }) =
      { now := t + 5000 * r
      , pending := none
      , attempts := a ++ (List.range (r + 1)).map (fun k => t + 5000 * k)
      , connState := .error
      , exited := if nodeEnv = some "production" then e else some 1 } := by
  intro r
  induction r with
  | zero =>
    intro t a cs e
    simp [invokeConnect, drainSched, hu, List.range_succ]
  | succ n ih =>
    intro t a cs e
    have hstep : invokeConnect mongoUri false nodeEnv (n + 1)
        { now := t, pending := none, attempts := a, connState := cs
        , exited := e } =
        { now := t, pending := some (t + 5000, n), attempts := a ++ [t]
        , connState := cs, exited := e } := by
      simp [invokeConnect, hu]
    have hfire : drainSched mongoUri false nodeEnv (n + 1)
        { now := t, pending := some (t + 5000, n), attempts := a ++ [t]
        , connState := cs, exited := e } =
        drainSched mongoUri false nodeEnv n
          (invokeConnect mongoUri false nodeEnv n
            { now := t + 5000, pending := none, attempts := a ++ [t]
            , connState := cs, exited := e }) := rfl
    rw [hstep, hfire, ih (t + 5000) (a ++ [t]) cs e]
    congr 1
    · ring
    · rw [List.append_assoc, List.singleton_append, retrySlots]

/-- Closed form of the connect phase when the URI is absent: the throw lands
in the catch block, no `mongoose.connect` call is ever recorded, yet the
retry loop still runs the full budget before reaching the error state. -/
theorem drainSched_noUri (nodeEnv : Option String) :
    ∀ (r t : Nat) (a : List Nat) (cs : ConnectionState) (e : Option Nat),
    drainSched none false nodeEnv r
      (invokeConnect none false nodeEnv r
        { now := t, pending := none, attempts := a, connState := cs
        , exited := e }) =
      { now := t + 5000 * r
      , pending := none
      , attempts := a
      , connState := .error
      , exited := if nodeEnv = some "production" then e else some 1 } := by
  intro r
  induction r with
  | zero =>
    intro t a cs e
    simp [invokeConnect, drainSched, uriPresent]
  | succ n ih =>
    intro t a cs e
    have hstep : invokeConnect none false nodeEnv (n + 1)
        { now := t, pending := none, attempts := a, connState := cs
        , exited := e } =
        { now := t, pending := some (t + 5000, n), attempts := a
        , connState := cs, exited := e } := by
      simp [invokeConnect, uriPresent]
    have hfire : drainSched none false nodeEnv (n + 1)
        { now := t, pending := some (t + 5000, n), attempts := a
        , connState := cs, exited := e } =
        drainSched none false nodeEnv n
          (invokeConnect none false nodeEnv n
            { now := t + 5000, pending := none, attempts := a
            , connState := cs, exited := e }) := rfl
    rw [hstep, hfire, ih (t + 5000) a cs e]
    congr 1
    ring

/-- C1: On the protected route, an absent credential yields status 401
with a `missing`-kind error body, a present but invalid credential yields
status 401 with an `invalid`-kind error body, in both cases the pipeline
short-circuits (the handler never runs), and whenever the handler does run it
runs with the verified identity the credential decodes to. -/
theorem protected_route_rejects_unauthenticated
    (decode : String → Option String) (cred : Option String) :
    (cred = none →
      runProtectedRoute decode cred =
        ({ status := 401, body := .authErrorBody .missing }, none)) ∧
    (∀ c, cred = some c → decode c = none →
      runProtectedRoute decode cred =
        ({ status := 401, body := .authErrorBody .invalid }, none)) ∧
    (∀ uid, (runProtectedRoute decode cred).2 = some uid →
      verify decode cred = .ok uid) := by
  refine ⟨fun h => ?_, fun c hc hdec => ?_, fun uid h => ?_⟩
  · subst h; rfl
  · subst hc
    simp [runProtectedRoute, verify, hdec]
  · unfold runProtectedRoute at h
    revert h
    cases hv : verify decode cred with
    | error e => intro h; simp at h
    | ok u =>
      intro h
      simp [protectedHandler] at h
      rw [h]

/-- Witness for C1: with a decoder that rejects everything, the missing and
invalid cases both return 401 without running the handler. -/
theorem protected_route_rejects_unauthenticated_witness :
    runProtectedRoute (fun _ => none) none =
      ({ status := 401, body := .authErrorBody .missing }, none) ∧
    runProtectedRoute (fun _ => none) (some "forged.token") =
      ({ status := 401, body := .authErrorBody .invalid }, none) :=
  ⟨(protected_route_rejects_unauthenticated (fun _ => none) none).1 rfl,
   (protected_route_rejects_unauthenticated (fun _ => none)
      (some "forged.token")).2.1 "forged.token" rfl rfl⟩

/-- C2: On the protected route, a valid bearer credential yields status
200 with body `{message, userId}` where `userId` is exactly the identity the
credential decodes to, and the handler runs with that identity. -/
theorem protected_route_accepts_valid
    (decode : String → Option String) (c uid : String)
    (hvalid : decode c = some uid) :
    runProtectedRoute decode (some c) =
      ({ status := 200
       , body := .protectedBody
           "This is protected data accessible only with valid token" uid },
       some uid) := by
  simp [runProtectedRoute, verify, hvalid, protectedHandler]

/-- Witness for C2: a concrete decoder accepting one token returns 200 with
the encoded identity. -/
theorem protected_route_accepts_valid_witness :
    runProtectedRoute (fun t => if t = "tok1" then some "user42" else none)
      (some "tok1") =
      ({ status := 200
       , body := .protectedBody
           "This is protected data accessible only with valid token" "user42" },
       some "user42") :=
  protected_route_accepts_valid
    (fun t => if t = "tok1" then some "user42" else none) "tok1" "user42" rfl

/-- C3: `GET /health` answers status 200 for every database connection
state, and its body carries the `status`, `timestamp`, `uptime` and
`environment` fields. -/
theorem health_always_200 (dbState : ConnectionState) (now : String)
    (uptime : Nat) (nodeEnv : Option String) :
    (healthHandler dbState now uptime nodeEnv).1 = 200 ∧
    (healthHandler dbState now uptime nodeEnv).2 =
      { status := "healthy", timestamp := now, uptime := uptime
      , environment := envOrDevelopment nodeEnv } := by
  constructor <;> rfl

/-- C4: With the URI configured and every connection attempt failing, a retry
budget of `N` yields exactly `N + 1` `mongoose.connect` attempts, at virtual
times `0, 5000, …, 5000 * N` — consecutive attempts separated by the fixed
5000ms delay (not an exponential one); each retry is a deferred task due
5000ms after the failing invocation with a decremented budget, and every
invocation returns without advancing time: the delay elapses in the event
loop, never inside the caller. -/
theorem connect_retry_schedule (uri : String) (huri : uri ≠ "")
    (nodeEnv : Option String) (N : Nat) :
    (runConnect (some uri) false nodeEnv N).attempts.length = N + 1 ∧
    (runConnect (some uri) false nodeEnv N).attempts =
      (List.range (N + 1)).map (fun k => 5000 * k) ∧
    (∀ retries s,
      (invokeConnect (some uri) false nodeEnv retries s).now = s.now) ∧
    (∀ s, (invokeConnect (some uri) false nodeEnv (N + 1) s).pending =
      some (s.now + 5000, N)) := by
  have hu : uriPresent (some uri) = true := by simp [uriPresent, huri]
  have hrun := drainSched_allFail (some uri) nodeEnv hu N 0 []
    .disconnected none
  have hatt : (runConnect (some uri) false nodeEnv N).attempts =
      (List.range (N + 1)).map (fun k => 5000 * k) := by
    simp only [runConnect, initSched]
    rw [hrun]
    simp
  refine ⟨by rw [hatt]; simp, hatt, ?_, ?_⟩
  · intro retries s
    by_cases h : 0 < retries <;> simp [invokeConnect, hu, h]
  · intro s
    simp [invokeConnect, hu]

/-- Witness for C4: with a concrete URI and budget 2, exactly three attempts
happen, at times 0, 5000 and 10000. -/
theorem connect_retry_schedule_witness :
    (runConnect (some "mongodb://localhost/expense") false none 2).attempts =
      [0, 5000, 10000] := by
  have h := connect_retry_schedule "mongodb://localhost/expense"
    (by decide) none 2
  rw [h.2.1]
  decide

/-- C5 counterexample: with `MONGO_URI` absent and the default budget of 5,
the very first invocation schedules a deferred retry (due 5000ms later with
budget 4) and leaves the connection state untouched — the code does NOT
transition immediately to the error state with no retry: the throw of
src/index.js line 89 lands in the same catch block as a transient failure. -/
theorem uri_missing_schedules_retry :
    (invokeConnect none false none 5 initSched).pending = some (5000, 4) ∧
    (invokeConnect none false none 5 initSched).connState ≠ .error := by
  decide

/-- C5 (amended): a missing URI is treated like a transient connection
failure, not a configuration error: no `mongoose.connect` call is ever made,
yet the catch block retries on the fixed 5000ms schedule until the budget `N`
is exhausted, and only then reaches the error state (exiting with code 1
outside production). -/
theorem uri_missing_retries_then_error (nodeEnv : Option String) (N : Nat) :
    (runConnect none false nodeEnv N).attempts = [] ∧
    (runConnect none false nodeEnv N).connState = .error ∧
    (runConnect none false nodeEnv N).now = 5000 * N ∧
    (runConnect none false nodeEnv N).exited =
      (if nodeEnv = some "production" then none else some 1) ∧
    (∀ s, (invokeConnect none false nodeEnv (N + 1) s).pending =
      some (s.now + 5000, N)) := by
  have hrun := drainSched_noUri nodeEnv N 0 [] .disconnected none
  refine ⟨?_, ?_, ?_, ?_, ?_⟩
  · simp only [runConnect, initSched]; rw [hrun]
  · simp only [runConnect, initSched]; rw [hrun]
  · simp only [runConnect, initSched]; rw [hrun]; simp
  · simp only [runConnect, initSched]; rw [hrun]
  · intro s
    simp [invokeConnect, uriPresent]

/-- C6: when the retry budget is exhausted without success, the process exits
with code 1 in development (`NODE_ENV !== "production"`), while in production
it does not exit, ends in the error connection state, and the `/health`
endpoint still answers 200 in that state. -/
theorem retry_exhaustion_env_policy (uri : String) (huri : uri ≠ "")
    (N : Nat) :
    (runConnect (some uri) false (some "development") N).exited = some 1 ∧
    (runConnect (some uri) false (some "production") N).exited = none ∧
    (runConnect (some uri) false (some "production") N).connState = .error ∧
    (∀ now up, (healthHandler
        (runConnect (some uri) false (some "production") N).connState
        now up (some "production")).1 = 200) := by
  have hu : uriPresent (some uri) = true := by simp [uriPresent, huri]
  have hdev := drainSched_allFail (some uri) (some "development") hu N 0 []
    .disconnected none
  have hprod := drainSched_allFail (some uri) (some "production") hu N 0 []
    .disconnected none
  refine ⟨?_, ?_, ?_, fun now up => rfl⟩
  · simp only [runConnect, initSched]; rw [hdev]; simp
  · simp only [runConnect, initSched]; rw [hprod]; simp
  · simp only [runConnect, initSched]; rw [hprod]

/-- Witness for C6: with a concrete URI and budget 1, development exits with
code 1 and production does not exit. -/
theorem retry_exhaustion_env_policy_witness :
    (runConnect (some "mongodb://h") false (some "development") 1).exited =
      some 1 ∧
    (runConnect (some "mongodb://h") false (some "production") 1).exited =
      none :=
  ⟨(retry_exhaustion_env_policy "mongodb://h" (by decide) 1).1,
   (retry_exhaustion_env_policy "mongodb://h" (by decide) 1).2.1⟩

/-- C7: both termination signals trigger the same drain sequence; when every
step succeeds the trace is exactly close-the-listener (awaited), then
close-the-database non-forcibly (`force = false`), then exit 0; when a step
fails the trace ends with the logged failure followed by exit 1; no close
step is ever retried (each close event occurs at most once), and the database
close is always non-forcible. -/
theorem shutdown_drain_sequence (sig : String)
    (hsig : sig = "SIGTERM" ∨ sig = "SIGINT")
    (serverListening serverCloseOk mongoOpen mongoCloseOk : Bool) :
    signalResponse sig serverListening serverCloseOk mongoOpen mongoCloseOk =
      some (gracefulShutdown serverListening serverCloseOk mongoOpen
        mongoCloseOk) ∧
    (serverListening = true → serverCloseOk = true → mongoOpen = true →
      mongoCloseOk = true →
      gracefulShutdown serverListening serverCloseOk mongoOpen mongoCloseOk =
        [.serverClosed, .mongoClosed false, .exitProcess 0]) ∧
    ((serverListening = true ∧ serverCloseOk = false) ∨
      (mongoOpen = true ∧ mongoCloseOk = false) →
      (gracefulShutdown serverListening serverCloseOk mongoOpen
          mongoCloseOk).getLast? = some (.exitProcess 1) ∧
      .shutdownErrorLogged ∈
        gracefulShutdown serverListening serverCloseOk mongoOpen
          mongoCloseOk) ∧
    (gracefulShutdown serverListening serverCloseOk mongoOpen
      mongoCloseOk).count .serverClosed ≤ 1 ∧
    (∀ f, .mongoClosed f ∈
        gracefulShutdown serverListening serverCloseOk mongoOpen
          mongoCloseOk → f = false) ∧
    (gracefulShutdown serverListening serverCloseOk mongoOpen
      mongoCloseOk).count (.mongoClosed false) ≤ 1 := by
  constructor
  · rcases hsig with h | h <;> simp [signalResponse, h]
  · cases serverListening <;> cases serverCloseOk <;> cases mongoOpen <;>
      cases mongoCloseOk <;> decide

/-- Witness for C7: on SIGTERM with a listening server and an open connection
whose closes both succeed, the drain trace is exactly server close, then
non-forcible database close, then exit 0. -/
theorem shutdown_drain_sequence_witness :
    signalResponse "SIGTERM" true true true true =
      some [.serverClosed, .mongoClosed false, .exitProcess 0] := by
  have h := shutdown_drain_sequence "SIGTERM" (Or.inl rfl) true true true true
  rw [h.1, h.2.1 rfl rfl rfl rfl]

/-- C8: the guarded connection close is idempotent: closing twice equals
closing once, closing an already-closed connection is a no-op (and no error),
and the second close issues no additional driver-level close operation. -/
theorem close_connection_idempotent (c : MongoConnection) :
    closeConnection (closeConnection c) = closeConnection c ∧
    (c.readyState = 0 → closeConnection c = c) ∧
    (closeConnection (closeConnection c)).closeOps =
      (closeConnection c).closeOps := by
  by_cases h : c.readyState = 0 <;> simp [closeConnection, h]

/-- Witness for C8: closing twice from `readyState = 1` equals closing once,
and closing an already-closed connection returns it unchanged. -/
theorem close_connection_idempotent_witness :
    closeConnection (closeConnection { readyState := 1, closeOps := 0 }) =
      closeConnection { readyState := 1, closeOps := 0 } ∧
    closeConnection { readyState := 0, closeOps := 3 } =
      { readyState := 0, closeOps := 3 } :=
  ⟨(close_connection_idempotent { readyState := 1, closeOps := 0 }).1,
   (close_connection_idempotent { readyState := 0, closeOps := 3 }).2.1 rfl⟩

/-- C9 counterexample: the variant global error handler (src/index.js lines
283-288, cited by the claim) never consults the environment: even in
production it echoes the internal error message, so its `error` field is not
the fixed string `"Internal Server Error"`. -/
theorem production_error_leak :
    (variantErrorHandler
      { status := some 500
      , message := "connect ECONNREFUSED 127.0.0.1:27017"
      , stack := "at Object.connect" }).error ≠ "Internal Server Error" := by
  decide

/-- C9 (amended): for the primary global error handler (src/index.js lines
151-163), in production the `error` field is the fixed string
`"Internal Server Error"` and the `stack` field is absent, so any two
internal errors with the same resolved status produce identical production
bodies; in development the body carries the message and stack. The variant
handler (lines 283-288) never includes a stack field but echoes the internal
message regardless of environment. -/
theorem production_errors_opaque (e1 e2 : ErrorInput)
    (hstatus : statusOr500 e1.status = statusOr500 e2.status) :
    (globalErrorHandler (some "production") e1).error =
      "Internal Server Error" ∧
    (globalErrorHandler (some "production") e1).stack = none ∧
    globalErrorHandler (some "production") e1 =
      globalErrorHandler (some "production") e2 ∧
    (globalErrorHandler (some "development") e1).error = e1.message ∧
    (globalErrorHandler (some "development") e1).stack = some e1.stack ∧
    (variantErrorHandler e1).stack = none ∧
    (e1.message ≠ "" → (variantErrorHandler e1).error = e1.message) := by
  refine ⟨by simp [globalErrorHandler], by simp [globalErrorHandler], ?_,
    by simp [globalErrorHandler], by simp [globalErrorHandler], rfl,
    fun h => by simp [variantErrorHandler, h]⟩
  simp [globalErrorHandler, hstatus]

/-- Witness for C9 (amended): two distinct internal errors with the same
status produce the same production body, and the variant handler echoes the
internal message. -/
theorem production_errors_opaque_witness :
    globalErrorHandler (some "production")
        { status := some 404, message := "boom A", stack := "sA" } =
      globalErrorHandler (some "production")
        { status := some 404, message := "boom B", stack := "sB" } ∧
    (variantErrorHandler
        { status := some 404, message := "boom A", stack := "sA" }).error =
      "boom A" := by
  have h := production_errors_opaque
    { status := some 404, message := "boom A", stack := "sA" }
    { status := some 404, message := "boom B", stack := "sB" } rfl
  exact ⟨h.2.2.1, h.2.2.2.2.2.2 (by decide)⟩

/-- C10: with `PORT` unset the server listens on the default port 5001, and
for every environment the root route echoes in its message exactly the port
handed to `app.listen`. -/
theorem default_port_echoed (envPort : Option String) :
    listenPort none = "5001" ∧
    rootMessage envPort =
      "Smart Expense Tracker API is running on port " ++ listenPort envPort :=
  ⟨rfl, rfl⟩

end ExpenseTracker
